import Mathlib

/-!
# blksnap snapshot image device (`drivers/block/blksnap/snapimage.c`)

A shallow embedding of the snapshot image block device: the submit list
(`submit_bio_push`, `submit_bio_pop`, `submit_bio_have`), the entry point
`snapimage_submit_bio`, the data path `bio_process`, the worker
`snapimage_submit_worker_fn`, and the life cycle `snapimage_create` /
`snapimage_free`.

Conventions of the embedding.

* A `struct bio *` is a `bio` value that carries its address (`addr`); the
  address is the identity of the request.
* The calls that leave `snapimage.c` (to the difference area, to `bio_endio`,
  `wake_up`, `del_gendisk`) are recorded, in call order, in `io_env.calls`.
* The difference area is a parameter: an arbitrary state machine
  `diff_area_ops σ` over an arbitrary state `σ`.
* Results of allocations that the environment decides (`kmalloc`, `kzalloc`,
  `kthread_create`, `blk_alloc_disk`, `snprintf`, `add_disk`) are explicit
  arguments.
* Locks, wait queues and scheduling points have no effect on a sequential run
  and appear as comments only.
-/

namespace Blksnap

/-! ## Kernel types used by `snapimage.c` -/

/-- Block status codes that `snapimage.c` names (`BLK_STS_OK`, `BLK_STS_IOERR`,
`BLK_STS_AGAIN`); every other code a collaborator may return is `other`.  The
header defining the numeric values is not part of the sources, so only the
distinctness of the named codes is used. -/
inductive blk_status_t where
  | BLK_STS_OK
  | BLK_STS_IOERR
  | BLK_STS_AGAIN
  | other (code : Nat)
deriving DecidableEq, Repr

export blk_status_t (BLK_STS_OK BLK_STS_IOERR BLK_STS_AGAIN)

abbrev sector_t := Nat

abbrev dev_t := Nat

/-- One segment yielded by `bio_for_each_segment`. -/
structure bio_vec where
  bv_page : Nat
  bv_len : Nat
  bv_offset : Nat
deriving DecidableEq, Repr

/-- The request flag word `bi_opf`, split into the parts `snapimage.c` reads:
the operation (`bio_op`) and the `REQ_NOWAIT` bit. -/
structure blk_opf_t where
  op : Nat
  REQ_NOWAIT : Bool
deriving DecidableEq, Repr

/-- The fields of `struct bio` that `snapimage.c` reads or writes.  `addr` is
the address of the structure, `bi_sector` is `bi_iter.bi_sector`, `segments`
is the sequence that `bio_for_each_segment` walks. -/
structure bio where
  addr : Nat
  bi_sector : sector_t
  bi_opf : blk_opf_t
  bi_status : blk_status_t
  segments : List bio_vec
deriving DecidableEq, Repr

/-- The kernel helper `op_is_write`: the low bit of the operation code. -/
def op_is_write (op : Nat) : Bool := op % 2 == 1

def bio_op (b : bio) : Nat := b.bi_opf.op

/-- A call that leaves `snapimage.c`.  `diff_area_image_io` records the
segment and cursor it was called with and the status and cursor it returned. -/
inductive call where
  | diff_area_throttling_io
  | diff_area_image_ctx_init (is_write : Bool)
  | diff_area_image_io (bvec : bio_vec) (pos : sector_t) (st : blk_status_t) (pos_out : sector_t)
  | diff_area_image_ctx_done
  | bio_endio (b : bio)
  | wake_up
  | del_gendisk
deriving DecidableEq, Repr

/-- The difference-area collaborator (`diff_area.h`, not part of the sources):
an arbitrary state machine.  `image_io` returns the segment status, the next
state and the advanced cursor (`*pos`). -/
structure diff_area_ops (σ : Type) where
  throttling_io : σ → σ
  image_ctx_init : σ → Bool → σ
  image_io : σ → bio_vec → sector_t → blk_status_t × σ × sector_t
  image_ctx_done : σ → σ

/-- The world outside the device as seen by the I/O path: the state of the
difference area and the calls made so far, oldest first. -/
structure io_env (σ : Type) where
  da : σ
  calls : List call

/-- `struct submit_event`; `link` is the position in `submit_list`. -/
structure submit_event where
  bio : bio
deriving DecidableEq, Repr

/-- The disk fields that `snapimage_create` fills in. -/
structure gendisk where
  disk_name_minor : Nat
  no_merges : Bool
  no_part : Bool
  major : Nat
  first_minor : Nat
  minors : Nat
  capacity : sector_t
deriving DecidableEq, Repr

/-- `struct snapimage`.  Pointers to collaborator objects are addresses
(`0` is `NULL`); `submit_task` tells whether the task pointer is set, `disk`
is `none` while `NULL`. -/
structure snapimage where
  image_dev_id : dev_t
  capacity : sector_t
  is_ready : Bool
  submit_task : Bool
  submit_list : List submit_event
  disk : Option gendisk
  diff_area : Nat
  cbt_map : Nat
deriving DecidableEq, Repr

/-! ## The data path -/

/-- The body of `bio_for_each_segment` in `bio_process` (lines 34-40): call
`diff_area_image_io` on each segment in turn, threading the cursor, and leave
the loop at the first status other than `BLK_STS_OK`.  Returns the state of
the difference area and the calls made. -/
def bio_for_each_segment {σ : Type} (ops : diff_area_ops σ) :
    List bio_vec → σ → sector_t → σ × List call
  | [], d, _ => (d, [])
  | bvec :: rest, d, pos =>
    let r := ops.image_io d bvec pos
    let st := r.1
    if st ≠ BLK_STS_OK then
      (r.2.1, [call.diff_area_image_io bvec pos st r.2.2])
    else
      let k := bio_for_each_segment ops rest r.2.1 r.2.2
      (k.1, call.diff_area_image_io bvec pos st r.2.2 :: k.2)

/-- `bio_process` (lines 24-43).  The status `st` of a segment is local to
the loop; `bio_endio` receives the bio as it was passed in. -/
def bio_process {σ : Type} (ops : diff_area_ops σ) (_snapimage : snapimage) (b : bio)
    (env : io_env σ) : io_env σ :=
  let pos := b.bi_sector
  let d1 := ops.throttling_io env.da
  let d2 := ops.image_ctx_init d1 (op_is_write (bio_op b))
  let k := bio_for_each_segment ops b.segments d2 pos
  let d3 := ops.image_ctx_done k.1
  { da := d3,
    calls := env.calls ++ [call.diff_area_throttling_io,
      call.diff_area_image_ctx_init (op_is_write (bio_op b))] ++ k.2 ++
      [call.diff_area_image_ctx_done, call.bio_endio b] }

/-! ## The submit list -/

/-- `submit_bio_have` (lines 45-54). -/
def submit_bio_have (sn : snapimage) : Bool := !sn.submit_list.isEmpty

/-- `submit_bio_pop` (lines 56-74): unlink the first event, if any, and
return its bio (`none` is `NULL`). -/
def submit_bio_pop (sn : snapimage) : Option bio × snapimage :=
  match sn.submit_list with
  | ev :: rest => (some ev.bio, { sn with submit_list := rest })
  | [] => (none, sn)

/-- Error number `ENOMEM` (kernel ABI value). -/
def ENOMEM : Int := 12

/-- Error number `EINVAL` (kernel ABI value). -/
def EINVAL : Int := 22

/-- Error number `ENOSPC` (kernel ABI value). -/
def ENOSPC : Int := 28

/-- `submit_bio_push` (lines 76-93).  `kmalloc_ok` tells whether `kmalloc`
returned an event. -/
def submit_bio_push (kmalloc_ok : Bool) (sn : snapimage) (b : bio) : Int × snapimage :=
  if !kmalloc_ok then
    (-ENOMEM, sn)
  else
    (0, { sn with submit_list := sn.submit_list ++ [{ bio := b }] })

/-- `snapimage_submit_bio` (lines 131-155); `sn` is
`bio->bi_bdev->bd_disk->private_data`.  The allocation flags `gfp` only tell
`kmalloc` whether it may sleep; its outcome is `kmalloc_ok`. -/
def snapimage_submit_bio {σ : Type} (kmalloc_ok : Bool) (sn : snapimage) (b : bio)
    (env : io_env σ) : snapimage × io_env σ :=
  if !sn.is_ready then
    let b1 := { b with bi_status := BLK_STS_IOERR }
    (sn, { env with calls := env.calls ++ [call.bio_endio b1] })
  else
    let r := submit_bio_push kmalloc_ok sn b
    if r.1 = 0 then
      (r.2, { env with calls := env.calls ++ [call.wake_up] })
    else
      let b1 :=
        if b.bi_opf.REQ_NOWAIT then { b with bi_status := BLK_STS_AGAIN }
        else { b with bi_status := BLK_STS_IOERR }
      (r.2, { env with calls := env.calls ++ [call.bio_endio b1] })

/-! ## The worker -/

set_option linter.unusedVariables false in
/-- The drain loop `while ((bio = submit_bio_pop(snapimage)))
bio_process(snapimage, bio);` (lines 111-112 and 122-123). -/
def worker_drain {σ : Type} (ops : diff_area_ops σ) (sn : snapimage) (env : io_env σ) :
    snapimage × io_env σ :=
  match h : submit_bio_pop sn with
  | (none, sn1) => (sn1, env)
  | (some b, sn1) => worker_drain ops sn1 (bio_process ops sn1 b env)
termination_by sn.submit_list.length
decreasing_by
  unfold submit_bio_pop at h
  split at h
  · next ev rest hl =>
    simp only [Prod.mk.injEq] at h
    rw [← h.2, hl]
    simp
  · simp at h

/-- The worker `snapimage_submit_worker_fn` while `kthread_should_stop()` is
false (lines 106-115).  The argument counts the evaluations of the loop
condition that still find no stop request: `0` leaves the loop. -/
def worker_loop {σ : Type} (ops : diff_area_ops σ) :
    Nat → snapimage → io_env σ → snapimage × io_env σ
  | 0, sn, env => (sn, env)
  | n + 1, sn, env =>
    -- wait_event_interruptible_timeout(submit_waitqueue, ..., 5 * HZ)
    let r := worker_drain ops sn env
    -- schedule()
    worker_loop ops n r.1 r.2

/-- `snapimage_submit_worker_fn` (lines 95-129), for a run in which the stop
request is seen at evaluation `rounds + 1` of the loop condition: the loop,
`del_gendisk`, and the final drain. -/
def snapimage_submit_worker_fn {σ : Type} (ops : diff_area_ops σ) (rounds : Nat)
    (sn : snapimage) (env : io_env σ) : snapimage × io_env σ :=
  let r := worker_loop ops rounds sn env
  let env1 := { r.2 with calls := r.2.calls ++ [call.del_gendisk] }
  worker_drain ops r.1 env1

/-! ## Device numbers and the registry -/

/-- Modelled from the spec: the two-part major/minor device identity.  The
constant `MINORBITS` and the macros `MINORMASK`, `MAJOR`, `MINOR`, `MKDEV`
come from a kernel header that is not part of the sources; the kernel's
packing is taken, the minor in the low `MINORBITS` = 20 bits and the major
above them. -/
def MINORBITS : Nat := 20

/-- Modelled from the spec: the mask of the minor part, see `MINORBITS`. -/
def MINORMASK : Nat := (1 <<< MINORBITS) - 1

/-- Modelled from the spec: the major part of a device number, see
`MINORBITS`. -/
def MAJOR (dev : dev_t) : Nat := dev >>> MINORBITS

/-- Modelled from the spec: the minor part of a device number, see
`MINORBITS`. -/
def MINOR (dev : dev_t) : Nat := dev &&& MINORMASK

/-- Modelled from the spec: the device number of a major and a minor, see
`MINORBITS`; `dev_t` is 32 bits wide. -/
def MKDEV (ma mi : Nat) : dev_t := ((ma <<< MINORBITS) ||| mi) % 2 ^ 32

/-- `NR_SNAPIMAGE_DEVT` (line 12). -/
def NR_SNAPIMAGE_DEVT : Nat := 1 <<< MINORBITS

/-- Modelled from the spec: the search inside the Device Registry's
`allocate` (see `ida_alloc_range`): the first identity not in `ida` among the
`n` identities starting at `id`. -/
def ida_first_free (ida : List Nat) : Nat → Nat → Option Nat
  | 0, _ => none
  | n + 1, id => if id ∈ ida then ida_first_free ida n (id + 1) else some id

/-- Modelled from the spec: the Device Registry's `allocate` (the kernel's
`ida_alloc_range`, which is not part of the sources).  The registry is the
list of identities in use; the call returns an unused identity of
`[min, max]` and marks it used, and fails (`-ENOSPC`) only when every
identity of the range is in use.  Among the unused identities the lowest is
taken. -/
def ida_alloc_range (ida : List Nat) (min max : Nat) : Int × List Nat :=
  match ida_first_free ida (max + 1 - min) min with
  | some id => ((id : Int), id :: ida)
  | none => (-ENOSPC, ida)

/-- Modelled from the spec: the Device Registry's `release` (the kernel's
`ida_free`): the identity returns to the free pool. -/
def ida_free (ida : List Nat) (id : Nat) : List Nat := ida.erase id

/-- Modelled from the spec: acquiring a share of a reference-counted
collaborator (`diff_area_get`, `cbt_map_get`): the count of the object at
`addr` goes up by one. -/
def kref_get (refs : Nat → Nat) (addr : Nat) : Nat → Nat :=
  Function.update refs addr (refs addr + 1)

/-- Modelled from the spec: releasing a share (`diff_area_put`,
`cbt_map_put`): the count of the object at `addr` goes down by one. -/
def kref_put (refs : Nat → Nat) (addr : Nat) : Nat → Nat :=
  Function.update refs addr (refs addr - 1)

/-- The difference area as `snapimage_create` sees it: its address and the
device number of the original device (used for logging). -/
structure diff_area where
  addr : Nat
  orig_bdev_dev : dev_t
deriving DecidableEq, Repr

/-- The change-tracking map as `snapimage_create` sees it. -/
structure cbt_map where
  addr : Nat
  device_capacity : sector_t
deriving DecidableEq, Repr

/-- Module-wide state: `_major`, the registry `snapimage_devt_ida`, the
reference counts of the collaborator objects by address, and the numbers of
live `struct snapimage` objects, worker threads and disks. -/
structure world where
  _major : Nat
  snapimage_devt_ida : List Nat
  diff_area_kref : Nat → Nat
  cbt_map_kref : Nat → Nat
  nr_snapimage : Nat
  nr_kthread : Nat
  nr_gendisk : Nat

/-- What the environment answers during one `snapimage_create`: whether
`kzalloc` returned memory, the error of `kthread_create` (`none` for a task),
whether `blk_alloc_disk` returned a disk, the value of `snprintf`, the value
of `add_disk`. -/
structure create_env where
  kzalloc_ok : Bool
  kthread_create_err : Option Int
  blk_alloc_disk_ok : Bool
  snprintf_ret : Int
  add_disk_ret : Int
deriving DecidableEq, Repr

/-! ## Life cycle -/

/-- Label `fail_free_image` of `snapimage_create` (lines 288-291). -/
def fail_free_image (w : world) (ret : Int) : world × Except Int snapimage :=
  -- kfree(snapimage)
  ({ w with nr_snapimage := w.nr_snapimage - 1 }, Except.error ret)

/-- Label `fail_free_minor` (lines 286-287), falling through. -/
def fail_free_minor (w : world) (minor : Int) (ret : Int) : world × Except Int snapimage :=
  fail_free_image { w with snapimage_devt_ida := ida_free w.snapimage_devt_ida minor.toNat } ret

/-- Label `fail_free_worker` (lines 284-285), falling through.  The task was
never woken, so `kthread_stop` ends it before the worker function runs. -/
def fail_free_worker (w : world) (minor : Int) (ret : Int) : world × Except Int snapimage :=
  fail_free_minor { w with nr_kthread := w.nr_kthread - 1 } minor ret

/-- Label `fail_cleanup_disk` (lines 282-283), falling through. -/
def fail_cleanup_disk (w : world) (minor : Int) (ret : Int) : world × Except Int snapimage :=
  -- put_disk(disk)
  fail_free_worker { w with nr_gendisk := w.nr_gendisk - 1 } minor ret

/-- `snapimage_create` (lines 181-292).  Returns the new module state and
either the device or the error of `ERR_PTR`. -/
def snapimage_create (w : world) (ce : create_env) (da : diff_area) (cbt : cbt_map) :
    world × Except Int snapimage :=
  if !ce.kzalloc_ok then
    (w, Except.error (-ENOMEM))
  else
    let w1 := { w with nr_snapimage := w.nr_snapimage + 1 }
    let a := ida_alloc_range w1.snapimage_devt_ida 0 (NR_SNAPIMAGE_DEVT - 1)
    let minor := a.1
    let w2 := { w1 with snapimage_devt_ida := a.2 }
    if minor < 0 then
      fail_free_image w2 minor
    else
      let sn1 : snapimage :=
        { image_dev_id := MKDEV w2._major minor.toNat,
          capacity := cbt.device_capacity,
          is_ready := true,
          submit_task := false,
          submit_list := [],
          disk := none,
          diff_area := 0,
          cbt_map := 0 }
      match ce.kthread_create_err with
      | some e => fail_free_minor w2 minor e
      | none =>
        let w3 := { w2 with nr_kthread := w2.nr_kthread + 1 }
        let sn2 := { sn1 with submit_task := true }
        if !ce.blk_alloc_disk_ok then
          fail_free_worker w3 minor (-ENOMEM)
        else
          let w4 := { w3 with nr_gendisk := w3.nr_gendisk + 1 }
          let disk1 : gendisk :=
            { disk_name_minor := 0, no_merges := true, no_part := false,
              major := 0, first_minor := 0, minors := 0, capacity := 0 }
          let sn3 := { sn2 with disk := some disk1 }
          if ce.snprintf_ret < 0 then
            fail_cleanup_disk w4 minor (-EINVAL)
          else
            let disk2 : gendisk :=
              { disk1 with disk_name_minor := minor.toNat, no_part := true,
                           major := w4._major, first_minor := minor.toNat, minors := 1,
                           capacity := sn3.capacity }
            let w5 := { w4 with diff_area_kref := kref_get w4.diff_area_kref da.addr }
            let sn4 := { sn3 with disk := some disk2, diff_area := da.addr }
            let w6 := { w5 with cbt_map_kref := kref_get w5.cbt_map_kref cbt.addr }
            let sn5 := { sn4 with cbt_map := cbt.addr }
            let ret := ce.add_disk_ret
            if ret ≠ 0 then
              fail_cleanup_disk w6 minor ret
            else
              -- wake_up_process(snapimage->submit_task)
              (w6, Except.ok sn5)

/-- `snapimage_free` (lines 162-179).  `kthread_stop` returns when the worker
function has returned; `rounds` is the number of times the worker still finds
no stop request at its loop condition. -/
def snapimage_free {σ : Type} (ops : diff_area_ops σ) (rounds : Nat) (w : world)
    (sn : snapimage) (env : io_env σ) : world × io_env σ :=
  -- blk_mq_freeze_queue(snapimage->disk->queue)
  let sn1 := { sn with is_ready := false }
  let r := snapimage_submit_worker_fn ops rounds sn1 env
  let w1 := { w with nr_kthread := w.nr_kthread - 1 }
  -- blk_mq_unfreeze_queue(snapimage->disk->queue)
  let w2 := { w1 with nr_gendisk := w1.nr_gendisk - 1 }
  let w3 := { w2 with diff_area_kref := kref_put w2.diff_area_kref sn1.diff_area }
  let w4 := { w3 with cbt_map_kref := kref_put w3.cbt_map_kref sn1.cbt_map }
  let w5 := { w4 with snapimage_devt_ida := ida_free w4.snapimage_devt_ida (MINOR sn1.image_dev_id) }
  ({ w5 with nr_snapimage := w5.nr_snapimage - 1 }, r.2)

/-! ## Drivers for sequences of calls -/

/-- The bios completed by `bio_endio`, oldest first. -/
def completions : List call → List bio
  | [] => []
  | call.bio_endio b :: rest => b :: completions rest
  | _ :: rest => completions rest

/-- A sequence of `snapimage_submit_bio` calls; each request comes with the
outcome of its `kmalloc`. -/
def submit_all {σ : Type} (reqs : List (bio × Bool)) (sn : snapimage) (env : io_env σ) :
    snapimage × io_env σ :=
  reqs.foldl (fun s r => snapimage_submit_bio r.2 s.1 r.1 s.2) (sn, env)

/-- A sequence of `submit_bio_push` calls whose allocations all succeed. -/
def push_all (bios : List bio) (sn : snapimage) : snapimage :=
  bios.foldl (fun s b => (submit_bio_push true s b).2) sn

/-- `n` successive `submit_bio_pop` calls: the values returned, in call
order, and the device afterwards. -/
def pop_n : Nat → snapimage → List (Option bio) × snapimage
  | 0, sn => ([], sn)
  | n + 1, sn =>
    let r := submit_bio_pop sn
    let k := pop_n n r.2
    (r.1 :: k.1, k.2)

/-- One `diff_area_image_io` call: the state of the difference area, the
segment and the cursor the call is made with. -/
structure image_io_call (σ : Type) where
  d : σ
  bvec : bio_vec
  pos : sector_t

/-- The status the call returns. -/
def image_io_call.st {σ : Type} (ops : diff_area_ops σ) (c : image_io_call σ) : blk_status_t :=
  (ops.image_io c.d c.bvec c.pos).1

/-- The state of the difference area after the call. -/
def image_io_call.d_out {σ : Type} (ops : diff_area_ops σ) (c : image_io_call σ) : σ :=
  (ops.image_io c.d c.bvec c.pos).2.1

/-- The cursor after the call. -/
def image_io_call.pos_out {σ : Type} (ops : diff_area_ops σ) (c : image_io_call σ) : sector_t :=
  (ops.image_io c.d c.bvec c.pos).2.2

/-- The call as it is recorded in `io_env.calls`. -/
def image_io_call.record {σ : Type} (ops : diff_area_ops σ) (c : image_io_call σ) : call :=
  call.diff_area_image_io c.bvec c.pos (c.st ops) (c.pos_out ops)

/-- A life-cycle call made by the owner of the devices: create a device, or
free the live device at position `idx`. -/
inductive lifecycle_call where
  | create (ce : create_env) (da : diff_area) (cbt : cbt_map)
  | free (idx : Nat) (rounds : Nat)

/-- The module state together with the devices that were created and not
yet freed. -/
structure lifecycle (σ : Type) where
  w : world
  live : List snapimage
  env : io_env σ

/-- One life-cycle call.  `free` is applied to live devices only. -/
def lifecycle.step {σ : Type} (ops : diff_area_ops σ) (s : lifecycle σ) :
    lifecycle_call → lifecycle σ
  | lifecycle_call.create ce da cbt =>
    let r := snapimage_create s.w ce da cbt
    match r.2 with
    | Except.ok sn => { s with w := r.1, live := s.live ++ [sn] }
    | Except.error _ => { s with w := r.1 }
  | lifecycle_call.free idx rounds =>
    match s.live[idx]? with
    | none => s
    | some sn =>
      let r := snapimage_free ops rounds s.w sn s.env
      { w := r.1, live := s.live.eraseIdx idx, env := r.2 }

def lifecycle.run {σ : Type} (ops : diff_area_ops σ) (s : lifecycle σ)
    (cs : List lifecycle_call) : lifecycle σ :=
  cs.foldl (lifecycle.step ops) s

/-- The registry agrees with the live devices: the identities in use are the
minors of the live devices, no identity is in use twice, and every identity
in use is below `NR_SNAPIMAGE_DEVT`. -/
def registry_inv {σ : Type} (s : lifecycle σ) : Prop :=
  (s.live.map (fun sn => MINOR sn.image_dev_id)).Perm s.w.snapimage_devt_ida ∧
  s.w.snapimage_devt_ida.Nodup ∧
  ∀ m ∈ s.w.snapimage_devt_ida, m < NR_SNAPIMAGE_DEVT

/-! ## Concrete values used to instantiate the theorems -/

/-- A difference area that fails every segment on page `7` and advances the
cursor by the sectors of the segment. -/
def example_ops : diff_area_ops Unit :=
  { throttling_io := fun d => d,
    image_ctx_init := fun d _ => d,
    image_io := fun d v pos =>
      (if v.bv_page = 7 then BLK_STS_IOERR else BLK_STS_OK, d, pos + v.bv_len / 512),
    image_ctx_done := fun d => d }

def example_snapimage : snapimage :=
  { image_dev_id := 0, capacity := 2048, is_ready := true, submit_task := true,
    submit_list := [], disk := none, diff_area := 1, cbt_map := 2 }

/-- A write of one page at sector `0`. -/
def example_bio : bio :=
  { addr := 100, bi_sector := 0, bi_opf := { op := 1, REQ_NOWAIT := false },
    bi_status := BLK_STS_OK, segments := [{ bv_page := 1, bv_len := 4096, bv_offset := 0 }] }

/-- A write of three pages at sector `8`, submitted with status
`BLK_STS_OK`; the difference area fails its second segment. -/
def example_bio_failing : bio :=
  { addr := 101, bi_sector := 8, bi_opf := { op := 1, REQ_NOWAIT := false },
    bi_status := BLK_STS_OK,
    segments := [{ bv_page := 1, bv_len := 4096, bv_offset := 0 },
                 { bv_page := 7, bv_len := 4096, bv_offset := 0 },
                 { bv_page := 3, bv_len := 4096, bv_offset := 0 }] }

def example_env : io_env Unit := { da := (), calls := [] }

/-- An empty registry; both collaborator objects have one owner. -/
def example_world : world :=
  { _major := 259, snapimage_devt_ida := [], diff_area_kref := fun _ => 1,
    cbt_map_kref := fun _ => 1, nr_snapimage := 0, nr_kthread := 0, nr_gendisk := 0 }

def example_diff_area : diff_area := { addr := 1, orig_bdev_dev := 8388608 }

def example_cbt_map : cbt_map := { addr := 2, device_capacity := 2048 }

/-- Every step of `snapimage_create` succeeds. -/
def example_create_ok : create_env :=
  { kzalloc_ok := true, kthread_create_err := none, blk_alloc_disk_ok := true,
    snprintf_ret := 10, add_disk_ret := 0 }

/-- Every step succeeds but the last: `add_disk` returns `-ENOMEM`. -/
def example_create_add_disk_fails : create_env :=
  { example_create_ok with add_disk_ret := -ENOMEM }

/-- The device that `snapimage_create` returns on `example_world`. -/
def example_created : snapimage :=
  { image_dev_id := 271581184, capacity := 2048, is_ready := true, submit_task := true,
    submit_list := [],
    disk := some { disk_name_minor := 0, no_merges := true, no_part := true, major := 259,
                   first_minor := 0, minors := 1, capacity := 2048 },
    diff_area := 1, cbt_map := 2 }

/-- Two devices are created, the first is freed, a third is created. -/
def example_lifecycle : List lifecycle_call :=
  [lifecycle_call.create example_create_ok example_diff_area example_cbt_map,
   lifecycle_call.create example_create_ok example_diff_area example_cbt_map,
   lifecycle_call.free 0 0,
   lifecycle_call.create example_create_ok example_diff_area example_cbt_map]

/-! ## Theorems -/

theorem worker_drain_nil {σ : Type} (ops : diff_area_ops σ) (sn : snapimage) (env : io_env σ)
    (h : sn.submit_list = []) : worker_drain ops sn env = (sn, env) := by
  rw [worker_drain]
  simp [submit_bio_pop, h]
  split <;> simp_all

theorem worker_drain_cons {σ : Type} (ops : diff_area_ops σ) (sn : snapimage) (env : io_env σ)
    (ev : submit_event) (rest : List submit_event)
    (h : sn.submit_list = ev :: rest) :
    worker_drain ops sn env =
      worker_drain ops { sn with submit_list := rest }
        (bio_process ops { sn with submit_list := rest } ev.bio env) := by
  rw [worker_drain]
  simp [submit_bio_pop, h]
  split <;> simp_all

/-! ### Completions -/

theorem completions_append (l1 l2 : List call) :
    completions (l1 ++ l2) = completions l1 ++ completions l2 := by
  induction l1 with
  | nil => rfl
  | cons c rest ih => cases c <;> simp [completions, ih]

theorem completions_segments {σ : Type} (ops : diff_area_ops σ) (segs : List bio_vec)
    (d : σ) (pos : sector_t) :
    completions (bio_for_each_segment ops segs d pos).2 = [] := by
  induction segs generalizing d pos with
  | nil => rfl
  | cons bvec rest ih =>
    unfold bio_for_each_segment
    by_cases hst : (ops.image_io d bvec pos).1 = BLK_STS_OK
    · simp [hst, completions, ih]
    · simp [hst, completions]

theorem completions_bio_process {σ : Type} (ops : diff_area_ops σ) (sn : snapimage) (b : bio)
    (env : io_env σ) :
    completions (bio_process ops sn b env).calls = completions env.calls ++ [b] := by
  simp [bio_process, completions_append, completions_segments, completions]

theorem completions_foldl_process {σ : Type} (ops : diff_area_ops σ) (sn : snapimage)
    (l : List submit_event) (env : io_env σ) :
    completions (l.foldl (fun e ev => bio_process ops sn ev.bio e) env).calls =
      completions env.calls ++ l.map submit_event.bio := by
  induction l generalizing env with
  | nil => simp
  | cons ev rest ih =>
    rw [List.foldl_cons, ih, completions_bio_process]
    simp

/-! ### The drain loop -/

theorem worker_drain_eq {σ : Type} (ops : diff_area_ops σ) (sn : snapimage) (env : io_env σ) :
    worker_drain ops sn env =
      ({ sn with submit_list := [] },
        sn.submit_list.foldl (fun e ev => bio_process ops sn ev.bio e) env) := by
  generalize hl : sn.submit_list = l
  induction l generalizing sn env with
  | nil =>
    rw [worker_drain_nil ops sn env hl]
    cases sn
    simp_all
  | cons ev rest ih =>
    rw [worker_drain_cons ops sn env ev rest hl, ih { sn with submit_list := rest } _ rfl]
    rfl

theorem worker_drain_completions {σ : Type} (ops : diff_area_ops σ) (sn : snapimage)
    (env : io_env σ) :
    completions (worker_drain ops sn env).2.calls =
      completions env.calls ++ sn.submit_list.map submit_event.bio := by
  rw [worker_drain_eq, completions_foldl_process]

theorem worker_drain_of_empty {σ : Type} (ops : diff_area_ops σ) (sn : snapimage)
    (env : io_env σ) (h : sn.submit_list = []) :
    worker_drain ops sn env = (sn, env) :=
  worker_drain_nil ops sn env h

theorem worker_loop_of_empty {σ : Type} (ops : diff_area_ops σ) (n : Nat) (sn : snapimage)
    (env : io_env σ) (h : sn.submit_list = []) :
    worker_loop ops n sn env = (sn, env) := by
  induction n with
  | zero => rfl
  | succ n ih =>
    unfold worker_loop
    simp only [worker_drain_of_empty ops sn env h]
    exact ih

/-! ### The submit list -/

theorem push_all_eq (bios : List bio) (sn : snapimage) :
    push_all bios sn =
      { sn with submit_list := sn.submit_list ++ bios.map submit_event.mk } := by
  unfold push_all
  induction bios generalizing sn with
  | nil => simp
  | cons b rest ih =>
    rw [List.foldl_cons, ih]
    simp [submit_bio_push]

theorem pop_n_map (bios : List bio) (sn : snapimage) :
    pop_n bios.length { sn with submit_list := bios.map submit_event.mk } =
      (bios.map some, { sn with submit_list := [] }) := by
  induction bios with
  | nil => rfl
  | cons b rest ih =>
    simp only [List.length_cons, List.map_cons, pop_n, submit_bio_pop]
    rw [ih]

theorem snapimage_with_nil (sn : snapimage) (h : sn.submit_list = []) :
    { sn with submit_list := [] } = sn := by
  cases sn
  simp_all

/-! ### Device numbers, the registry and `snapimage_create` -/

theorem MINOR_MKDEV (ma mi : Nat) (h : mi < NR_SNAPIMAGE_DEVT) : MINOR (MKDEV ma mi) = mi := by
  have h20 : mi < 2 ^ 20 := by simpa [NR_SNAPIMAGE_DEVT, MINORBITS] using h
  have hor : (ma <<< 20) ||| mi = 2 ^ 20 * ma + mi := by
    rw [Nat.shiftLeft_eq, Nat.mul_comm]
    exact (Nat.mul_add_lt_is_or h20 ma).symm
  have hmask : MINORMASK = 2 ^ 20 - 1 := by decide
  unfold MINOR MKDEV
  rw [hmask, Nat.and_pow_two_sub_one_eq_mod]
  simp only [MINORBITS]
  rw [hor, Nat.mod_mod_of_dvd _ (by decide : (2 ^ 20 : Nat) ∣ 2 ^ 32)]
  rw [Nat.mul_add_mod]
  exact Nat.mod_eq_of_lt h20

theorem ida_first_free_spec (ida : List Nat) (n s m : Nat)
    (h : ida_first_free ida n s = some m) : m ∉ ida ∧ s ≤ m ∧ m < s + n := by
  induction n generalizing s with
  | zero => simp [ida_first_free] at h
  | succ n ih =>
    unfold ida_first_free at h
    split at h
    · obtain ⟨h1, h2, h3⟩ := ih (s + 1) h
      exact ⟨h1, by omega, by omega⟩
    · next hnot =>
      simp only [Option.some.injEq] at h
      subst h
      exact ⟨hnot, le_refl _, by omega⟩

theorem eraseIdx_map_minor {α : Type} (f : α → Nat) (l : List α) (idx : Nat) (x : α)
    (hx : l[idx]? = some x) (hnd : (l.map f).Nodup) :
    (l.eraseIdx idx).map f = (l.map f).erase (f x) := by
  induction l generalizing idx with
  | nil => simp at hx
  | cons a rest ih =>
    cases idx with
    | zero =>
      simp at hx
      subst hx
      simp
    | succ i =>
      simp at hx
      have hnd' : f a ∉ rest.map f ∧ (rest.map f).Nodup := by
        rw [List.map_cons] at hnd
        exact List.nodup_cons.mp hnd
      have hmem : f x ∈ rest.map f := List.mem_map_of_mem f (List.getElem?_mem hx)
      have hne : f a ≠ f x := by
        intro heq
        exact hnd'.1 (heq ▸ hmem)
      simp only [List.eraseIdx_cons_succ, List.map_cons]
      rw [List.erase_cons_tail (by simpa using hne), ih i hx hnd'.2]

theorem ida_alloc_range_some (ida : List Nat) (m : Nat)
    (h : ida_first_free ida NR_SNAPIMAGE_DEVT 0 = some m) :
    ida_alloc_range ida 0 (NR_SNAPIMAGE_DEVT - 1) = ((m : Int), m :: ida) := by
  have hn : NR_SNAPIMAGE_DEVT - 1 + 1 - 0 = NR_SNAPIMAGE_DEVT := by decide
  simp [ida_alloc_range, hn, h]

theorem ida_alloc_range_none (ida : List Nat)
    (h : ida_first_free ida NR_SNAPIMAGE_DEVT 0 = none) :
    ida_alloc_range ida 0 (NR_SNAPIMAGE_DEVT - 1) = (-ENOSPC, ida) := by
  have hn : NR_SNAPIMAGE_DEVT - 1 + 1 - 0 = NR_SNAPIMAGE_DEVT := by decide
  simp [ida_alloc_range, hn, h]

theorem snapimage_create_ok (w w1 : world) (ce : create_env) (da : diff_area) (cbt : cbt_map)
    (sn : snapimage) (h : snapimage_create w ce da cbt = (w1, Except.ok sn)) :
    ∃ m, ida_first_free w.snapimage_devt_ida NR_SNAPIMAGE_DEVT 0 = some m ∧
      w1 = { w with snapimage_devt_ida := m :: w.snapimage_devt_ida,
                    diff_area_kref := kref_get w.diff_area_kref da.addr,
                    cbt_map_kref := kref_get w.cbt_map_kref cbt.addr,
                    nr_snapimage := w.nr_snapimage + 1,
                    nr_kthread := w.nr_kthread + 1,
                    nr_gendisk := w.nr_gendisk + 1 } ∧
      sn.image_dev_id = MKDEV w._major m ∧ sn.diff_area = da.addr ∧ sn.cbt_map = cbt.addr ∧
      sn.submit_list = [] ∧ sn.is_ready = true ∧ sn.capacity = cbt.device_capacity := by
  unfold snapimage_create at h
  cases hfree : ida_first_free w.snapimage_devt_ida NR_SNAPIMAGE_DEVT 0 with
  | none =>
    simp only [ida_alloc_range_none _ hfree, fail_free_image, ENOSPC] at h
    split at h
    · simp at h
    · split at h
      · simp at h
      · omega
  | some m =>
    refine ⟨m, rfl, ?_⟩
    simp only [ida_alloc_range_some _ m hfree] at h
    split at h
    · simp at h
    · split at h
      · omega
      · split at h
        · simp [fail_free_minor, fail_free_image] at h
        · split at h
          · simp [fail_free_worker, fail_free_minor, fail_free_image] at h
          · split at h
            · simp [fail_cleanup_disk, fail_free_worker, fail_free_minor, fail_free_image] at h
            · split at h
              · simp [fail_cleanup_disk, fail_free_worker, fail_free_minor, fail_free_image] at h
              · simp only [Prod.mk.injEq, Except.ok.injEq] at h
                obtain ⟨hw, hs⟩ := h
                subst hw hs
                simp


/-- An error return of `snapimage_create` leaves the module state as it was
before the call, except when the failing step is `add_disk`: then the error
is that of `add_disk` and both collaborators keep the share taken before
it. -/
theorem snapimage_create_error (w w1 : world) (ce : create_env) (da : diff_area) (cbt : cbt_map)
    (e : Int) (h : snapimage_create w ce da cbt = (w1, Except.error e)) :
    w1 = w ∨
    (ce.add_disk_ret ≠ 0 ∧ e = ce.add_disk_ret ∧
      w1 = { w with diff_area_kref := kref_get w.diff_area_kref da.addr,
                    cbt_map_kref := kref_get w.cbt_map_kref cbt.addr }) := by
  unfold snapimage_create at h
  cases hfree : ida_first_free w.snapimage_devt_ida NR_SNAPIMAGE_DEVT 0 with
  | none =>
    simp only [ida_alloc_range_none _ hfree, fail_free_image, ENOSPC] at h
    split at h
    · simp only [Prod.mk.injEq] at h
      exact Or.inl h.1.symm
    · split at h
      · simp only [Prod.mk.injEq] at h
        left
        rw [← h.1]
        simp
      · omega
  | some m =>
    simp only [ida_alloc_range_some _ m hfree] at h
    split at h
    · simp only [Prod.mk.injEq] at h
      exact Or.inl h.1.symm
    · split at h
      · omega
      · split at h
        · simp only [fail_free_minor, fail_free_image, Prod.mk.injEq] at h
          left
          rw [← h.1]
          simp [ida_free]
        · split at h
          · simp only [fail_free_worker, fail_free_minor, fail_free_image, Prod.mk.injEq] at h
            left
            rw [← h.1]
            simp [ida_free]
          · split at h
            · simp only [fail_cleanup_disk, fail_free_worker, fail_free_minor, fail_free_image,
                Prod.mk.injEq] at h
              left
              rw [← h.1]
              simp [ida_free]
            · split at h
              · next hret =>
                simp only [fail_cleanup_disk, fail_free_worker, fail_free_minor, fail_free_image,
                  Prod.mk.injEq, Except.error.injEq] at h
                right
                refine ⟨hret, h.2.symm, ?_⟩
                rw [← h.1]
                simp [ida_free]
              · simp at h

theorem snapimage_create_error_ida (w w1 : world) (ce : create_env) (da : diff_area)
    (cbt : cbt_map) (e : Int) (h : snapimage_create w ce da cbt = (w1, Except.error e)) :
    w1.snapimage_devt_ida = w.snapimage_devt_ida := by
  rcases snapimage_create_error w w1 ce da cbt e h with h1 | ⟨-, -, h1⟩
  · rw [h1]
  · rw [h1]

theorem kref_put_get (refs : Nat → Nat) (addr : Nat) :
    kref_put (kref_get refs addr) addr = refs := by
  unfold kref_put kref_get
  simp


/-! ### `snapimage_submit_bio` -/

theorem submit_bio_pushed {σ : Type} (sn : snapimage) (b : bio) (env : io_env σ)
    (h : sn.is_ready = true) :
    snapimage_submit_bio true sn b env =
      ({ sn with submit_list := sn.submit_list ++ [{ bio := b }] },
        { env with calls := env.calls ++ [call.wake_up] }) := by
  simp [snapimage_submit_bio, submit_bio_push, h]

theorem submit_bio_nomem {σ : Type} (sn : snapimage) (b : bio) (env : io_env σ)
    (h : sn.is_ready = true) :
    snapimage_submit_bio false sn b env =
      (sn, { env with calls := env.calls ++ [call.bio_endio
        { b with bi_status := if b.bi_opf.REQ_NOWAIT then BLK_STS_AGAIN else BLK_STS_IOERR }] }) := by
  simp only [snapimage_submit_bio, submit_bio_push, h, ENOMEM]
  cases b.bi_opf.REQ_NOWAIT <;> simp

theorem submit_all_inv {σ : Type} (reqs : List (bio × Bool)) (sn : snapimage) (env : io_env σ)
    (h : sn.is_ready = true) :
    (submit_all reqs sn env).1.is_ready = true ∧
    (((completions (submit_all reqs sn env).2.calls).map bio.addr ++
        (submit_all reqs sn env).1.submit_list.map (fun ev => ev.bio.addr)).Perm
      (((completions env.calls).map bio.addr ++
        sn.submit_list.map (fun ev => ev.bio.addr)) ++ reqs.map (fun r => r.1.addr))) := by
  induction reqs generalizing sn env with
  | nil => simp [submit_all, h]
  | cons r rest ih =>
    obtain ⟨b, ok⟩ := r
    have hstep : submit_all ((b, ok) :: rest) sn env =
        submit_all rest (snapimage_submit_bio ok sn b env).1 (snapimage_submit_bio ok sn b env).2 := by
      simp [submit_all]
    rw [hstep]
    cases ok with
    | true =>
      rw [submit_bio_pushed sn b env h]
      obtain ⟨h1, h2⟩ := ih { sn with submit_list := sn.submit_list ++ [{ bio := b }] }
        { env with calls := env.calls ++ [call.wake_up] } h
      refine ⟨h1, h2.trans ?_⟩
      simp [completions_append, completions]
    | false =>
      rw [submit_bio_nomem sn b env h]
      obtain ⟨h1, h2⟩ := ih sn
        { env with calls := env.calls ++ [call.bio_endio
          { b with bi_status := if b.bi_opf.REQ_NOWAIT then BLK_STS_AGAIN else BLK_STS_IOERR }] } h
      refine ⟨h1, h2.trans ?_⟩
      simp only [completions_append, completions, List.map_append, List.map_cons, List.map_nil,
        List.append_assoc]
      refine List.Perm.append_left _ ?_
      rw [List.singleton_append]
      exact List.perm_middle.symm

/-! ### The segment loop -/

theorem bio_for_each_segment_calls {σ : Type} (ops : diff_area_ops σ) (segs : List bio_vec)
    (d : σ) (pos : sector_t) :
    ∃ cs : List (image_io_call σ),
      (bio_for_each_segment ops segs d pos).2 = cs.map (image_io_call.record ops) ∧
      cs.map image_io_call.bvec = segs.take cs.length ∧
      (∀ c ∈ cs.head?, c.pos = pos ∧ c.d = d) ∧
      List.Chain' (fun c c1 => c1.pos = c.pos_out ops ∧ c1.d = c.d_out ops) cs ∧
      (∀ c ∈ cs.dropLast, c.st ops = BLK_STS_OK) ∧
      (cs.length < segs.length → ∃ c ∈ cs.getLast?, c.st ops ≠ BLK_STS_OK) := by
  induction segs generalizing d pos with
  | nil => exact ⟨[], by simp [bio_for_each_segment]⟩
  | cons bvec rest ih =>
    by_cases hst : (ops.image_io d bvec pos).1 = BLK_STS_OK
    · obtain ⟨cs, h1, h2, h3, h4, h5, h6⟩ :=
        ih (ops.image_io d bvec pos).2.1 (ops.image_io d bvec pos).2.2
      refine ⟨{ d := d, bvec := bvec, pos := pos } :: cs, ?_, ?_, ?_, ?_, ?_, ?_⟩
      · unfold bio_for_each_segment
        simp [hst, h1, image_io_call.record, image_io_call.st, image_io_call.pos_out]
      · simp [h2]
      · simp
      · rw [List.chain'_cons']
        refine ⟨?_, h4⟩
        intro c hc
        have := h3 c hc
        simpa [image_io_call.pos_out, image_io_call.d_out] using this
      · intro c hc
        cases cs with
        | nil => simp at hc
        | cons c0 cs0 =>
          rw [List.dropLast_cons₂] at hc
          rcases List.mem_cons.mp hc with rfl | hc
          · simpa [image_io_call.st] using hst
          · exact h5 c hc
      · intro hlt
        cases cs with
        | nil =>
          have hlt0 : ([] : List (image_io_call σ)).length < rest.length := by
            simpa using hlt
          obtain ⟨c, hc, _⟩ := h6 hlt0
          simp at hc
        | cons c0 cs0 =>
          have hlt0 : (c0 :: cs0).length < rest.length := by
            simpa using hlt
          obtain ⟨c, hc, hne⟩ := h6 hlt0
          exact ⟨c, by simpa [List.getLast?_cons_cons] using hc, hne⟩
    · refine ⟨[{ d := d, bvec := bvec, pos := pos }], ?_, ?_, ?_, ?_, ?_, ?_⟩
      · unfold bio_for_each_segment
        simp [hst, image_io_call.record, image_io_call.st, image_io_call.pos_out]
      · simp
      · simp
      · simp
      · simp
      · intro _
        exact ⟨{ d := d, bvec := bvec, pos := pos }, by simp,
          by simpa [image_io_call.st] using hst⟩

/-! ### The worker function -/

theorem worker_loop_succ {σ : Type} (ops : diff_area_ops σ) (n : Nat) (sn : snapimage)
    (env : io_env σ) :
    worker_loop ops (n + 1) sn env = worker_drain ops sn env := by
  unfold worker_loop
  simp only
  rw [worker_loop_of_empty ops n _ _ (by rw [worker_drain_eq])]

theorem worker_fn_list {σ : Type} (ops : diff_area_ops σ) (rounds : Nat) (sn : snapimage)
    (env : io_env σ) :
    (snapimage_submit_worker_fn ops rounds sn env).1.submit_list = [] := by
  unfold snapimage_submit_worker_fn
  rw [worker_drain_eq]

theorem worker_fn_completions {σ : Type} (ops : diff_area_ops σ) (rounds : Nat)
    (sn : snapimage) (env : io_env σ) :
    completions (snapimage_submit_worker_fn ops rounds sn env).2.calls =
      completions env.calls ++ sn.submit_list.map submit_event.bio := by
  unfold snapimage_submit_worker_fn
  cases rounds with
  | zero =>
    simp [worker_loop, worker_drain_completions, completions_append, completions]
  | succ n =>
    rw [worker_loop_succ]
    simp only [worker_drain_completions, completions_append, completions, List.append_nil]
    rw [worker_drain_eq]
    simp [completions_foldl_process]

theorem worker_fn_del_gendisk {σ : Type} (ops : diff_area_ops σ) (rounds : Nat)
    (sn : snapimage) (env : io_env σ) :
    call.del_gendisk ∈ (snapimage_submit_worker_fn ops rounds sn env).2.calls := by
  have hmono : ∀ (l : List submit_event) (e : io_env σ), call.del_gendisk ∈ e.calls →
      call.del_gendisk ∈ (l.foldl (fun e ev => bio_process ops sn ev.bio e) e).calls := by
    intro l
    induction l with
    | nil => intro e he; exact he
    | cons ev rest ih =>
      intro e he
      rw [List.foldl_cons]
      apply ih
      simp [bio_process, he]
  unfold snapimage_submit_worker_fn
  rw [worker_drain_eq]
  exact hmono _ _ (by simp)

/-! ### Claims about the request path -/

/-- C1: on a ready device, after any sequence of `snapimage_submit_bio` calls
(each with its own `kmalloc` outcome, for any difference area) followed by
the drain loop of the worker, the submit list is empty and the requests
completed by `bio_endio` are, up to order, the requests that were on the list
plus the submitted ones; when these requests are distinct, each submitted
request was completed exactly once. -/
theorem submitted_bios_complete_exactly_once {σ : Type} (ops : diff_area_ops σ)
    (reqs : List (bio × Bool)) (sn : snapimage) (d : σ)
    (hready : sn.is_ready = true)
    (hdistinct : (sn.submit_list.map (fun ev => ev.bio.addr) ++
      reqs.map (fun r => r.1.addr)).Nodup) :
    (worker_drain ops (submit_all reqs sn { da := d, calls := [] }).1
        (submit_all reqs sn { da := d, calls := [] }).2).1.submit_list = [] ∧
    ((completions (worker_drain ops (submit_all reqs sn { da := d, calls := [] }).1
        (submit_all reqs sn { da := d, calls := [] }).2).2.calls).map bio.addr).Perm
      (sn.submit_list.map (fun ev => ev.bio.addr) ++ reqs.map (fun r => r.1.addr)) ∧
    ∀ r ∈ reqs,
      ((completions (worker_drain ops (submit_all reqs sn { da := d, calls := [] }).1
        (submit_all reqs sn { da := d, calls := [] }).2).2.calls).map bio.addr).count r.1.addr
        = 1 := by
  have hperm : ((completions (worker_drain ops (submit_all reqs sn { da := d, calls := [] }).1
        (submit_all reqs sn { da := d, calls := [] }).2).2.calls).map bio.addr).Perm
      (sn.submit_list.map (fun ev => ev.bio.addr) ++ reqs.map (fun r => r.1.addr)) := by
    have hinv := (submit_all_inv reqs sn { da := d, calls := [] } hready).2
    rw [worker_drain_completions, List.map_append, List.map_map]
    simpa [completions, Function.comp_def] using hinv
  refine ⟨by rw [worker_drain_eq], hperm, ?_⟩
  intro r hr
  rw [hperm.count_eq]
  exact List.count_eq_one_of_mem hdistinct
    (List.mem_append_right _ (List.mem_map_of_mem (fun r => r.1.addr) hr))

theorem submitted_bios_complete_exactly_once_witness :
    example_snapimage.is_ready = true ∧
    ((completions (worker_drain example_ops
        (submit_all [(example_bio, true), (example_bio_failing, false)] example_snapimage
          { da := (), calls := [] }).1
        (submit_all [(example_bio, true), (example_bio_failing, false)] example_snapimage
          { da := (), calls := [] }).2).2.calls).map bio.addr).count example_bio.addr = 1 :=
  ⟨by decide,
    (submitted_bios_complete_exactly_once example_ops
      [(example_bio, true), (example_bio_failing, false)] example_snapimage ()
      (by decide) (by decide)).2.2 (example_bio, true) (by simp)⟩

/-- C2: the submit list is first in, first out.  `submit_bio_push` returns `0`
when its allocation succeeds.  After `submit_bio_push` of `bios` (every
allocation succeeding) onto an empty list, as many
`submit_bio_pop` calls return the bios in the order pushed and leave the list
empty; the drain loop of the worker passes them to `bio_process` in that
order; `submit_bio_pop` on an empty list returns `NULL` and changes nothing. -/
theorem submit_list_is_fifo (bios : List bio) (sn : snapimage)
    (hempty : sn.submit_list = []) :
    (∀ (s : snapimage) (b : bio), (submit_bio_push true s b).1 = 0) ∧
    pop_n bios.length (push_all bios sn) = (bios.map some, sn) ∧
    (∀ (σ : Type) (ops : diff_area_ops σ) (env : io_env σ),
      worker_drain ops (push_all bios sn) env =
        (sn, bios.foldl (fun e b => bio_process ops sn b e) env) ∧
      completions (worker_drain ops (push_all bios sn) env).2.calls =
        completions env.calls ++ bios) ∧
    submit_bio_pop sn = (none, sn) := by
  have hpush : push_all bios sn = { sn with submit_list := bios.map submit_event.mk } := by
    rw [push_all_eq, hempty, List.nil_append]
  refine ⟨fun _ _ => rfl, ?_, ?_, ?_⟩
  · rw [hpush, pop_n_map, snapimage_with_nil sn hempty]
  · intro σ ops env
    have hdrain : worker_drain ops (push_all bios sn) env =
        (sn, bios.foldl (fun e b => bio_process ops sn b e) env) := by
      rw [hpush, worker_drain_eq]
      simp only [snapimage_with_nil sn hempty, List.foldl_map]
      rfl
    refine ⟨hdrain, ?_⟩
    rw [worker_drain_completions, hpush]
    simp [Function.comp_def]
  · simp [submit_bio_pop, hempty]

theorem submit_list_is_fifo_witness :
    pop_n 2 (push_all [example_bio, example_bio_failing] example_snapimage) =
      ([some example_bio, some example_bio_failing], example_snapimage) :=
  (submit_list_is_fifo [example_bio, example_bio_failing] example_snapimage (by decide)).2.1

/-- C3: a request submitted while `is_ready` is false is completed at once
with `BLK_STS_IOERR`, whatever `kmalloc` would have answered; the device,
and with it the submit list, is unchanged, so `submit_bio_pop` and the drain
loop of the worker behave as if the request had never been submitted. -/
theorem submit_when_not_ready_fails_without_queueing {σ : Type} (kmalloc_ok : Bool)
    (sn : snapimage) (b : bio) (env : io_env σ) (hnot : sn.is_ready = false) :
    snapimage_submit_bio kmalloc_ok sn b env =
      (sn, { env with calls := env.calls ++
        [call.bio_endio { b with bi_status := BLK_STS_IOERR }] }) ∧
    (snapimage_submit_bio kmalloc_ok sn b env).1.submit_list = sn.submit_list ∧
    submit_bio_pop (snapimage_submit_bio kmalloc_ok sn b env).1 = submit_bio_pop sn ∧
    completions (snapimage_submit_bio kmalloc_ok sn b env).2.calls =
      completions env.calls ++ [{ b with bi_status := BLK_STS_IOERR }] ∧
    ∀ (ops : diff_area_ops σ) (e : io_env σ),
      worker_drain ops (snapimage_submit_bio kmalloc_ok sn b env).1 e =
        worker_drain ops sn e := by
  have h : snapimage_submit_bio kmalloc_ok sn b env =
      (sn, { env with calls := env.calls ++
        [call.bio_endio { b with bi_status := BLK_STS_IOERR }] }) := by
    simp [snapimage_submit_bio, hnot]
  refine ⟨h, ?_, ?_, ?_, ?_⟩
  · rw [h]
  · rw [h]
  · rw [h]
    simp [completions_append, completions]
  · intro ops e
    rw [h]

theorem submit_when_not_ready_fails_without_queueing_witness :
    completions (snapimage_submit_bio true { example_snapimage with is_ready := false }
      example_bio example_env).2.calls =
      completions example_env.calls ++ [{ example_bio with bi_status := BLK_STS_IOERR }] :=
  (submit_when_not_ready_fails_without_queueing true
    { example_snapimage with is_ready := false } example_bio example_env (by decide)).2.2.2.1

/-- C6: on a ready device, when the allocation in `submit_bio_push` fails the
device (and its submit list) is unchanged and the request is completed at
once, with `BLK_STS_AGAIN` exactly when it carries `REQ_NOWAIT` and with
`BLK_STS_IOERR` exactly when it does not; when the allocation succeeds the
request is appended, unchanged, at the tail of the submit list, the worker is
woken and nothing is completed. -/
theorem submit_on_ready_device {σ : Type} (sn : snapimage) (b : bio) (env : io_env σ)
    (hready : sn.is_ready = true) :
    (∃ st : blk_status_t,
      snapimage_submit_bio false sn b env =
        (sn, { env with calls := env.calls ++ [call.bio_endio { b with bi_status := st }] }) ∧
      (st = BLK_STS_AGAIN ↔ b.bi_opf.REQ_NOWAIT = true) ∧
      (st = BLK_STS_IOERR ↔ b.bi_opf.REQ_NOWAIT = false)) ∧
    snapimage_submit_bio true sn b env =
      ({ sn with submit_list := sn.submit_list ++ [{ bio := b }] },
        { env with calls := env.calls ++ [call.wake_up] }) ∧
    completions (snapimage_submit_bio true sn b env).2.calls = completions env.calls := by
  refine ⟨⟨if b.bi_opf.REQ_NOWAIT then BLK_STS_AGAIN else BLK_STS_IOERR,
    submit_bio_nomem sn b env hready, ?_, ?_⟩, submit_bio_pushed sn b env hready, ?_⟩
  · cases b.bi_opf.REQ_NOWAIT <;> simp
  · cases b.bi_opf.REQ_NOWAIT <;> simp
  · rw [submit_bio_pushed sn b env hready]
    simp [completions_append, completions]

theorem submit_on_ready_device_witness :
    completions (snapimage_submit_bio true example_snapimage example_bio example_env).2.calls =
      completions example_env.calls :=
  (submit_on_ready_device example_snapimage example_bio example_env (by decide)).2.2

/-- C4 (defect in the code): `bio_process` does not store the status of a
failed segment in the request.  For a request submitted with status
`BLK_STS_OK` whose second of three segments fails with `BLK_STS_IOERR`, the
calls made are as listed: the third segment is not attempted and `bio_endio`
receives the request with status `BLK_STS_OK`, not `BLK_STS_IOERR`. -/
theorem bio_process_completes_failed_request_with_entry_status :
    (bio_process example_ops example_snapimage example_bio_failing example_env).calls =
      [call.diff_area_throttling_io,
        call.diff_area_image_ctx_init true,
        call.diff_area_image_io { bv_page := 1, bv_len := 4096, bv_offset := 0 } 8 BLK_STS_OK 16,
        call.diff_area_image_io { bv_page := 7, bv_len := 4096, bv_offset := 0 } 16
          BLK_STS_IOERR 24,
        call.diff_area_image_ctx_done,
        call.bio_endio { example_bio_failing with bi_status := BLK_STS_OK }] := by
  decide

/-- C5: the calls `bio_process` makes for a request are, in order:
`diff_area_throttling_io` once, `diff_area_image_ctx_init`, a run of
`diff_area_image_io` calls, `diff_area_image_ctx_done`, `bio_endio`.  The
`diff_area_image_io` calls take the segments of the request in order, from
the first; the first is made with the start sector of the request and each
later one with the cursor (and difference-area state) the previous call left;
only the last of them can have returned a status other than `BLK_STS_OK`; and
if not every segment was visited, the last call did return such a status. -/
theorem bio_process_call_trace {σ : Type} (ops : diff_area_ops σ) (sn : snapimage) (b : bio)
    (env : io_env σ) :
    ∃ cs : List (image_io_call σ),
      (bio_process ops sn b env).calls =
        env.calls ++ [call.diff_area_throttling_io,
          call.diff_area_image_ctx_init (op_is_write (bio_op b))] ++
          cs.map (image_io_call.record ops) ++
          [call.diff_area_image_ctx_done, call.bio_endio b] ∧
      cs.map image_io_call.bvec = b.segments.take cs.length ∧
      (∀ c ∈ cs.head?, c.pos = b.bi_sector ∧
        c.d = ops.image_ctx_init (ops.throttling_io env.da) (op_is_write (bio_op b))) ∧
      List.Chain' (fun c c1 => c1.pos = c.pos_out ops ∧ c1.d = c.d_out ops) cs ∧
      (∀ c ∈ cs.dropLast, c.st ops = BLK_STS_OK) ∧
      (cs.length < b.segments.length → ∃ c ∈ cs.getLast?, c.st ops ≠ BLK_STS_OK) := by
  obtain ⟨cs, h1, h2, h3, h4, h5, h6⟩ := bio_for_each_segment_calls ops b.segments
    (ops.image_ctx_init (ops.throttling_io env.da) (op_is_write (bio_op b))) b.bi_sector
  exact ⟨cs, by simp [bio_process, h1], h2, h3, h4, h5, h6⟩

/-- C7: whenever the stop request of `snapimage_free` reaches the worker
(after any number `rounds` of further passes through its loop), the worker
function returns, and when it returns the submit list is empty, every request
that was on the list has been completed by `bio_process`, in the order of the
list and once each, and the disk has been deleted; `kthread_stop` in
`snapimage_free` returns with exactly that outcome. -/
theorem worker_completes_queue_before_stopping {σ : Type} (ops : diff_area_ops σ)
    (rounds : Nat) (w : world) (sn : snapimage) (env : io_env σ) :
    (snapimage_submit_worker_fn ops rounds { sn with is_ready := false } env).1.submit_list
      = [] ∧
    completions (snapimage_submit_worker_fn ops rounds { sn with is_ready := false } env).2.calls
      = completions env.calls ++ sn.submit_list.map submit_event.bio ∧
    call.del_gendisk ∈
      (snapimage_submit_worker_fn ops rounds { sn with is_ready := false } env).2.calls ∧
    (snapimage_free ops rounds w sn env).2 =
      (snapimage_submit_worker_fn ops rounds { sn with is_ready := false } env).2 := by
  refine ⟨worker_fn_list ops rounds _ env, ?_, worker_fn_del_gendisk ops rounds _ env, rfl⟩
  rw [worker_fn_completions]

/-! ### Claims about the life cycle -/

/-- When `add_disk` fails after every earlier step of `snapimage_create`
succeeded, the error of `add_disk` is returned, the registry and the object
counts are as before the call, and both collaborators keep the share taken
before `add_disk`. -/
theorem snapimage_create_add_disk_failure (w : world) (ce : create_env) (da : diff_area)
    (cbt : cbt_map) (m : Nat)
    (hfree : ida_first_free w.snapimage_devt_ida NR_SNAPIMAGE_DEVT 0 = some m)
    (hk : ce.kzalloc_ok = true) (ht : ce.kthread_create_err = none)
    (hd : ce.blk_alloc_disk_ok = true) (hs : 0 ≤ ce.snprintf_ret) (ha : ce.add_disk_ret ≠ 0) :
    snapimage_create w ce da cbt =
      ({ w with diff_area_kref := kref_get w.diff_area_kref da.addr,
                cbt_map_kref := kref_get w.cbt_map_kref cbt.addr },
        Except.error ce.add_disk_ret) := by
  unfold snapimage_create
  simp only [ida_alloc_range_some _ m hfree, hk, ht, hd]
  have hs1 : ¬ ce.snprintf_ret < 0 := by omega
  have hm : ¬ ((m : Int) < 0) := by omega
  simp [hs1, hm, ha, fail_cleanup_disk, fail_free_worker, fail_free_minor, fail_free_image,
    ida_free]

/-- C8 (defect in the code): when `add_disk` fails, `snapimage_create`
returns the error without releasing the shares taken by `diff_area_get` and
`cbt_map_get`.  On a world where both reference counts are `1`, the failing
call returns `-ENOMEM` and leaves both counts at `2`; the registry and the
numbers of device objects, worker threads and disks are restored. -/
theorem snapimage_create_add_disk_failure_keeps_references :
    (snapimage_create example_world example_create_add_disk_fails example_diff_area
        example_cbt_map).2 = Except.error (-12) ∧
    example_world.diff_area_kref example_diff_area.addr = 1 ∧
    (snapimage_create example_world example_create_add_disk_fails example_diff_area
        example_cbt_map).1.diff_area_kref example_diff_area.addr = 2 ∧
    example_world.cbt_map_kref example_cbt_map.addr = 1 ∧
    (snapimage_create example_world example_create_add_disk_fails example_diff_area
        example_cbt_map).1.cbt_map_kref example_cbt_map.addr = 2 ∧
    (snapimage_create example_world example_create_add_disk_fails example_diff_area
        example_cbt_map).1.snapimage_devt_ida = [] ∧
    (snapimage_create example_world example_create_add_disk_fails example_diff_area
        example_cbt_map).1.nr_snapimage = 0 ∧
    (snapimage_create example_world example_create_add_disk_fails example_diff_area
        example_cbt_map).1.nr_kthread = 0 ∧
    (snapimage_create example_world example_create_add_disk_fails example_diff_area
        example_cbt_map).1.nr_gendisk = 0 := by
  refine ⟨by rfl, by decide, by decide, by decide, by decide, by decide, by decide, by decide,
    by decide⟩

/-- C9: a successful `snapimage_create` followed by `snapimage_free` of the
created device (whatever is on its submit list by then) gives back the module
state from before the create.  Create raises the reference count of the
difference area and of the change-tracking map by one each and free lowers
each by one; the device number is `MKDEV(_major, minor)` and its `MINOR` is
the minor allocated, which was unused before; after the free the registry,
the reference counts and the object counts are those from before the create;
a later successful create gets the same device number; on an empty registry
the minor is `0`. -/
theorem create_then_free_restores_module_state {σ : Type} (ops : diff_area_ops σ)
    (rounds : Nat) (env : io_env σ)
    (w w1 : world) (ce : create_env) (da : diff_area) (cbt : cbt_map) (sn : snapimage)
    (q : List submit_event)
    (h : snapimage_create w ce da cbt = (w1, Except.ok sn)) :
    w1.diff_area_kref da.addr = w.diff_area_kref da.addr + 1 ∧
    w1.cbt_map_kref cbt.addr = w.cbt_map_kref cbt.addr + 1 ∧
    sn.image_dev_id = MKDEV w._major (MINOR sn.image_dev_id) ∧
    MINOR sn.image_dev_id ∉ w.snapimage_devt_ida ∧
    w1.snapimage_devt_ida = MINOR sn.image_dev_id :: w.snapimage_devt_ida ∧
    (snapimage_free ops rounds w1 { sn with submit_list := q } env).1.diff_area_kref da.addr
      = w1.diff_area_kref da.addr - 1 ∧
    (snapimage_free ops rounds w1 { sn with submit_list := q } env).1.cbt_map_kref cbt.addr
      = w1.cbt_map_kref cbt.addr - 1 ∧
    (snapimage_free ops rounds w1 { sn with submit_list := q } env).1 = w ∧
    (∀ (ce2 : create_env) (da2 : diff_area) (cbt2 : cbt_map) (w3 : world) (sn2 : snapimage),
      snapimage_create (snapimage_free ops rounds w1 { sn with submit_list := q } env).1
          ce2 da2 cbt2 = (w3, Except.ok sn2) →
        sn2.image_dev_id = sn.image_dev_id) ∧
    (w.snapimage_devt_ida = [] → MINOR sn.image_dev_id = 0) := by
  obtain ⟨m, hfree, hw1, hdev, hda, hcbt, -, -, -⟩ := snapimage_create_ok w w1 ce da cbt sn h
  obtain ⟨hnot, -, hlt⟩ := ida_first_free_spec _ _ _ _ hfree
  have hminor : MINOR sn.image_dev_id = m := by
    rw [hdev]
    exact MINOR_MKDEV _ _ (by omega)
  have hfreeW : (snapimage_free ops rounds w1 { sn with submit_list := q } env).1 = w := by
    subst hw1
    simp only [snapimage_free, hda, hcbt, hminor, kref_put_get, ida_free,
      List.erase_cons_head, Nat.add_sub_cancel]
  refine ⟨?_, ?_, ?_, ?_, ?_, ?_, ?_, hfreeW, ?_, ?_⟩
  · subst hw1
    simp [kref_get]
  · subst hw1
    simp [kref_get]
  · rw [hminor, hdev]
  · rw [hminor]
    exact hnot
  · rw [hminor, hw1]
  · rw [hfreeW]
    subst hw1
    simp [kref_get]
  · rw [hfreeW]
    subst hw1
    simp [kref_get]
  · intro ce2 da2 cbt2 w3 sn2 h2
    rw [hfreeW] at h2
    obtain ⟨m2, hfree2, -, hdev2, -⟩ := snapimage_create_ok w w3 ce2 da2 cbt2 sn2 h2
    rw [hfree] at hfree2
    simp only [Option.some.injEq] at hfree2
    rw [hdev2, hdev, hfree2]
  · intro hnil
    rw [hminor]
    rw [hnil] at hfree
    have h0 : ida_first_free [] NR_SNAPIMAGE_DEVT 0 = some 0 := by decide
    rw [h0] at hfree
    simpa using hfree.symm


theorem create_then_free_restores_module_state_witness :
    (snapimage_free example_ops 0
      (snapimage_create example_world example_create_ok example_diff_area example_cbt_map).1
      { example_created with submit_list := [] } example_env).1 = example_world :=
  (create_then_free_restores_module_state example_ops 0 example_env example_world
    (snapimage_create example_world example_create_ok example_diff_area example_cbt_map).1
    example_create_ok example_diff_area example_cbt_map example_created []
    (Prod.ext rfl (by rfl))).2.2.2.2.2.2.2.1

/-! ### The registry invariant -/

theorem registry_inv_step {σ : Type} (ops : diff_area_ops σ) (s : lifecycle σ)
    (c : lifecycle_call) (hinv : registry_inv s) : registry_inv (lifecycle.step ops s c) := by
  obtain ⟨hperm, hnd, hlt⟩ := hinv
  cases c with
  | create ce da cbt =>
    unfold lifecycle.step
    simp only
    cases hres : (snapimage_create s.w ce da cbt).2 with
    | ok sn =>
      have hc : snapimage_create s.w ce da cbt = ((snapimage_create s.w ce da cbt).1, Except.ok sn) := by
        rw [← hres]
      obtain ⟨m, hfree, hw1, hdev, -⟩ := snapimage_create_ok _ _ ce da cbt sn hc
      obtain ⟨hnot, -, hm⟩ := ida_first_free_spec _ _ _ _ hfree
      have hminor : MINOR sn.image_dev_id = m := by
        rw [hdev]
        exact MINOR_MKDEV _ _ (by omega)
      refine ⟨?_, ?_, ?_⟩
      · simp only [List.map_append, List.map_cons, List.map_nil, hminor]
        rw [hw1]
        simp only
        exact (List.perm_append_comm).trans (List.Perm.cons m hperm)
      · rw [hw1]
        exact List.nodup_cons.mpr ⟨hnot, hnd⟩
      · rw [hw1]
        intro x hx
        rcases List.mem_cons.mp hx with rfl | hx
        · omega
        · exact hlt x hx
    | error e =>
      have hc : snapimage_create s.w ce da cbt = ((snapimage_create s.w ce da cbt).1, Except.error e) := by
        rw [← hres]
      have hida := snapimage_create_error_ida _ _ ce da cbt e hc
      refine ⟨?_, ?_, ?_⟩
      · simpa [hida] using hperm
      · simpa [hida] using hnd
      · simpa [hida] using hlt
  | free idx rounds =>
    unfold lifecycle.step
    simp only
    cases hget : s.live[idx]? with
    | none => exact ⟨hperm, hnd, hlt⟩
    | some sn =>
      have hida : (snapimage_free ops rounds s.w sn s.env).1.snapimage_devt_ida =
          s.w.snapimage_devt_ida.erase (MINOR sn.image_dev_id) := by
        simp [snapimage_free, ida_free]
      have hndl : (s.live.map (fun sn => MINOR sn.image_dev_id)).Nodup :=
        hperm.nodup_iff.mpr hnd
      refine ⟨?_, ?_, ?_⟩
      · simp only [hida]
        rw [eraseIdx_map_minor (fun sn => MINOR sn.image_dev_id) s.live idx sn hget hndl]
        exact hperm.erase _
      · simp only [hida]
        exact hnd.erase _
      · simp only [hida]
        intro x hx
        exact hlt x (List.mem_of_mem_erase hx)

theorem registry_inv_run {σ : Type} (ops : diff_area_ops σ) (cs : List lifecycle_call)
    (s : lifecycle σ) (hinv : registry_inv s) : registry_inv (lifecycle.run ops s cs) := by
  induction cs generalizing s with
  | nil => exact hinv
  | cons c rest ih => exact ih _ (registry_inv_step ops s c hinv)

/-- C10: in every state reached from an empty registry by `snapimage_create`
and `snapimage_free` calls (free only of live devices; creates may fail at
any step), two different live devices have different minors and different
device numbers, the minor of every live device is at most
`2 ^ MINORBITS - 1`, the identities in use in the registry are exactly the
minors of the live devices, and a further successful create returns a minor
that no live device holds. -/
theorem live_devices_have_distinct_minors {σ : Type} (ops : diff_area_ops σ) (w0 : world)
    (env0 : io_env σ)
    (cs : List lifecycle_call) (h0 : w0.snapimage_devt_ida = []) :
    (∀ i j : Fin (lifecycle.run ops { w := w0, live := [], env := env0 } cs).live.length,
      i ≠ j →
      MINOR ((lifecycle.run ops { w := w0, live := [], env := env0 } cs).live.get i).image_dev_id ≠
        MINOR ((lifecycle.run ops { w := w0, live := [], env := env0 } cs).live.get j).image_dev_id ∧
      ((lifecycle.run ops { w := w0, live := [], env := env0 } cs).live.get i).image_dev_id ≠
        ((lifecycle.run ops { w := w0, live := [], env := env0 } cs).live.get j).image_dev_id) ∧
    (∀ sn ∈ (lifecycle.run ops { w := w0, live := [], env := env0 } cs).live,
      MINOR sn.image_dev_id ≤ 2 ^ MINORBITS - 1) ∧
    ((lifecycle.run ops { w := w0, live := [], env := env0 } cs).live.map
        (fun sn => MINOR sn.image_dev_id)).Perm
      (lifecycle.run ops { w := w0, live := [], env := env0 } cs).w.snapimage_devt_ida ∧
    ∀ (ce : create_env) (da : diff_area) (cbt : cbt_map) (w1 : world) (sn : snapimage),
      snapimage_create (lifecycle.run ops { w := w0, live := [], env := env0 } cs).w ce da cbt
          = (w1, Except.ok sn) →
        ∀ d ∈ (lifecycle.run ops { w := w0, live := [], env := env0 } cs).live,
          MINOR d.image_dev_id ≠ MINOR sn.image_dev_id := by
  have hinit : registry_inv ({ w := w0, live := [], env := env0 } : lifecycle σ) := by
    refine ⟨by simp [h0], by simp [h0], by simp [h0]⟩
  have hinv := registry_inv_run ops cs _ hinit
  generalize lifecycle.run ops { w := w0, live := [], env := env0 } cs = s at hinv ⊢
  obtain ⟨hperm, hnd, hlt⟩ := hinv
  have hndl : (s.live.map (fun sn => MINOR sn.image_dev_id)).Nodup := hperm.nodup_iff.mpr hnd
  refine ⟨?_, ?_, hperm, ?_⟩
  · intro i j hij
    have hne : MINOR (s.live.get i).image_dev_id ≠ MINOR (s.live.get j).image_dev_id := by
      intro heq
      have hinj := List.nodup_iff_injective_get.mp hndl
      have hi : i.1 < (s.live.map (fun sn => MINOR sn.image_dev_id)).length := by
        simp
      have hj : j.1 < (s.live.map (fun sn => MINOR sn.image_dev_id)).length := by
        simp
      have := @hinj ⟨i.1, hi⟩ ⟨j.1, hj⟩ (by simpa using heq)
      exact hij (Fin.ext (by simpa using this))
    exact ⟨hne, fun heq => hne (by rw [heq])⟩
  · intro sn hsn
    have hmem : MINOR sn.image_dev_id ∈ s.w.snapimage_devt_ida :=
      hperm.subset (List.mem_map_of_mem (fun sn => MINOR sn.image_dev_id) hsn)
    have := hlt _ hmem
    have hn : NR_SNAPIMAGE_DEVT = 2 ^ MINORBITS := by decide
    omega
  · intro ce da cbt w1 sn hc d hd heq
    obtain ⟨m, hfree, -, hdev, -⟩ := snapimage_create_ok _ _ ce da cbt sn hc
    obtain ⟨hnot, -, hm⟩ := ida_first_free_spec _ _ _ _ hfree
    have hminor : MINOR sn.image_dev_id = m := by
      rw [hdev]
      exact MINOR_MKDEV _ _ (by omega)
    apply hnot
    rw [← hminor, ← heq]
    exact hperm.subset (List.mem_map_of_mem (fun sn => MINOR sn.image_dev_id) hd)

theorem live_devices_have_distinct_minors_witness :
    example_world.snapimage_devt_ida = [] ∧
    ((lifecycle.run example_ops
        { w := example_world, live := [], env := example_env } example_lifecycle).live.map
        (fun sn => MINOR sn.image_dev_id)).Perm
      (lifecycle.run example_ops
        { w := example_world, live := [], env := example_env } example_lifecycle).w.snapimage_devt_ida :=
  ⟨by rfl,
    (live_devices_have_distinct_minors example_ops example_world example_env example_lifecycle
      (by rfl)).2.2.1⟩

end Blksnap
